import Mathlib

/-!
Verification development for `src/service_deployment_tools/setup_marathon_job.py`.

The Python module is shallowly embedded below.  External collaborators
(`marathon_tools`, `service_configuration_lib`, the Marathon REST client,
`bounce_lib`, `pysensu_yelp`, the docker registry) are not part of the
repository; their observable behaviour is supplied through oracle values
(a `World`), and the calls the program makes to them are recorded in an
explicit trace of `Call` values.  Python exceptions that the module itself
raises or catches are modelled with the `PyExc` type; Python truthiness of
optional values is modelled explicitly.
-/

/-- Python exception classes that appear in the module's control flow. -/
inductive PyExc where
  | indexError
  | keyError
  | typeError
  | valueError
  | ioError
deriving DecidableEq, Repr

/-- The textual description `str(e)` of an exception, used in alert output. -/
def PyExc.msg : PyExc → String
  | .indexError => "IndexError"
  | .keyError => "KeyError"
  | .typeError => "TypeError"
  | .valueError => "ValueError"
  | .ioError => "IOError"

/-- The two `pysensu_yelp.Status` levels this module uses. -/
inductive Status where
  | ok
  | critical
deriving DecidableEq, Repr

/-- Python truthiness of an optional integer (`None` and `0` are falsy). -/
def intTruthy : Option Int → Bool
  | none => false
  | some n => n != 0

/-- Python truthiness of an optional string (`None` and `""` are falsy). -/
def strTruthy : Option String → Bool
  | none => false
  | some s => s != ""

/-- One chunk list per separator occurrence, mirroring Python `str.split`
for a single-character separator. -/
def splitCharAux (c : Char) : List Char → List (List Char)
  | [] => [[]]
  | x :: xs =>
    let rest := splitCharAux c xs
    if x = c then
      [] :: rest
    else
      match rest with
      | [] => [[x]]
      | r :: rs => (x :: r) :: rs

/-- Python `s.split(sep)` for the single-character separators this program
uses (the identity separator and the image-tag separator `:`). -/
def pySplit (s sep : String) : List String :=
  match sep.data with
  | [c] => (splitCharAux c s.data).map String.mk
  | _ => [s]

/-- Python substring containment `needle in hay`, on the character lists. -/
def containsAux (needle : List Char) : List Char → Bool
  | [] => needle.isEmpty
  | x :: xs => needle.isPrefixOf (x :: xs) || containsAux needle xs

/-- Python `needle in hay` for strings. -/
def strContainsSub (hay needle : String) : Bool :=
  containsAux needle.data hay.data

/-- Modelled from the spec: `marathon_tools.ID_SPACER`, the shared identity
separator (`marathon_tools` is not part of this repository).  The spec fixes
the identity form `SERVICE.INSTANCE`, "service and instance name joined by a
literal `.`", so the shared separator literal is `"."`. -/
def ID_SPACER : String := "."

/-- Modelled from the spec: `marathon_tools.compose_job_id` — the full job id
is `service_name <SEP> instance_name <SEP> iteration` with the shared
separator literal. -/
def compose_job_id (name instance_name iteration : String) : String :=
  name ++ ID_SPACER ++ instance_name ++ ID_SPACER ++ iteration

/-- Modelled from the spec: `marathon_tools.remove_iteration_from_job_id` —
the full job id with the iteration suffix and its separator removed. -/
def remove_iteration_from_job_id (job_id : String) : String :=
  String.intercalate ID_SPACER ((pySplit job_id ID_SPACER).dropLast)

/-- A value stored in a monitoring configuration record. -/
inductive MVal where
  | str (s : String)
  | int (n : Int)
deriving DecidableEq, Repr

/-- Python truthiness of a monitoring value. -/
def MVal.truthy : MVal → Bool
  | .str s => s != ""
  | .int n => n != 0

/-- A Python dict as read from `monitoring.yaml`: keys to values. -/
abbrev MonitorConf : Type := List (String × MVal)

/-- Python `d.get(k)` on a monitoring record: the value stored at the key. -/
def dictGet : MonitorConf → String → Option MVal
  | [], _ => none
  | (k', v) :: t, k => if k' = k then some v else dictGet t k

/-- Python `del d[k]` on a monitoring record: the entries at other keys. -/
def dictDel : MonitorConf → String → MonitorConf
  | [], _ => []
  | (k', v) :: t, k => if k' = k then dictDel t k else (k', v) :: dictDel t k

/-- Python `d[k] = v` on a monitoring record. -/
def dictSet (d : MonitorConf) (k : String) (v : MVal) : MonitorConf :=
  dictDel d k ++ [(k, v)]

/-- The per-instance marathon configuration record
(`read_service_config` result).  `iteration` and `docker_image` are accessed
with mandatory `[...]` lookups in the source; the remaining keys are read
with `.get` and are optional. -/
structure ServiceConfig where
  iteration : String
  docker_image : String
  num_ports : Option Int := none
  mem : Option Int := none
  cpus : Option Int := none
  constraints : Option String := none
  instances : Option Int := none
  bounce_method : Option String := none
deriving DecidableEq, Repr

/-- `get_ports`: `[0 for i in range(int(num_ports))]` when `num_ports` is
truthy, else the default single placeholder port. -/
def get_ports (service_config : ServiceConfig) : List Int :=
  let num_ports := service_config.num_ports
  if intTruthy num_ports then
    (List.range (num_ports.getD 0).toNat).map (fun _ => (0 : Int))
  else
    [0]

/-- `get_mem`: `int(mem) if mem else 100`. -/
def get_mem (service_config : ServiceConfig) : Int :=
  let mem := service_config.mem
  if intTruthy mem then mem.getD 0 else 100

/-- `get_cpus`: `int(cpus) if cpus else 1`. -/
def get_cpus (service_config : ServiceConfig) : Int :=
  let cpus := service_config.cpus
  if intTruthy cpus then cpus.getD 0 else 1

/-- `get_constraints`: passed through unmodified. -/
def get_constraints (service_config : ServiceConfig) : Option String :=
  service_config.constraints

/-- `get_instances`: `int(instances) if instances else 1`. -/
def get_instances (service_config : ServiceConfig) : Int :=
  let instances := service_config.instances
  if intTruthy instances then instances.getD 0 else 1

/-- `get_bounce_method`: the configured string, defaulting to `"brutal"`. -/
def get_bounce_method (service_config : ServiceConfig) : String :=
  let bounce_method := service_config.bounce_method
  if strTruthy bounce_method then bounce_method.getD "" else "brutal"

/-- The complete configuration dict passed to the Marathon REST API
(`create_complete_config` result). -/
structure CompleteConfig where
  id : String
  container_image : String
  container_options : List String
  uris : List String
  ports : List Int
  mem : Int
  cpus : Int
  constraints : Option String
  instances : Int
deriving DecidableEq, Repr

/-- `create_complete_config(name, url, docker_options, service_marathon_config)`. -/
def create_complete_config (name url : String) (docker_options : List String)
    (service_marathon_config : ServiceConfig) : CompleteConfig :=
  { id := name
    container_image := url
    container_options := docker_options
    uris := []
    ports := get_ports service_marathon_config
    mem := get_mem service_marathon_config
    cpus := get_cpus service_marathon_config
    constraints := get_constraints service_marathon_config
    instances := get_instances service_marathon_config }

/-- `get_docker_url(registry_uri, docker_image)`, with the registry's HTTP
response body supplied as an oracle.  The source evaluates
`docker_image.split(':')[1]` while building the request URL, so an image
with no tag separator raises `IndexError` before the body is consulted. -/
def get_docker_url (registry_uri docker_image : String) (registry_body : String) :
    Except PyExc String :=
  if (pySplit docker_image ":").length < 2 then
    .error .indexError
  else if strContainsSub registry_body "error" then
    .ok ""
  else
    .ok ("docker:///" ++ registry_uri ++ "/" ++ docker_image)

/-- One externally visible call the program makes: orchestrator operations,
the bounce delegate, and the alerting pipeline.  `sensu_report` marks an
invocation of the alerting reporter (`send_sensu_event`); `send_event` is the
actual alert-client call it may make. -/
inductive Call where
  | list_apps
  | get_app (id : String)
  | create_app (config : CompleteConfig)
  | brutal_bounce (old_app_ids : List String) (config : CompleteConfig)
  | sensu_report (name instance_name : String) (status : Status) (output : String)
  | send_event (name runbook : String) (status : Status) (output : String)
      (team : MVal) (extra : MonitorConf)
deriving DecidableEq, Repr

/-- Whether a call touches the orchestrator's deploy paths
(listing, creating, or bouncing apps). -/
def Call.isOrchWrite : Call → Bool
  | .list_apps => true
  | .create_app _ => true
  | .brutal_bounce _ _ => true
  | _ => false

/-- Whether a call is an alert-client `send_event` call. -/
def Call.isSendEvent : Call → Bool
  | .send_event _ _ _ _ _ _ => true
  | _ => false

/-- Whether a call marks an invocation of the alerting reporter. -/
def Call.isSensuReport : Call → Bool
  | .sensu_report _ _ _ _ => true
  | _ => false

/-- The alert-client calls occurring in a trace. -/
def sendEventCalls (calls : List Call) : List Call :=
  calls.filter Call.isSendEvent

/-- How many times a trace attempts the alerting event (invocations of the
alerting reporter). -/
def sensuAttempts (calls : List Call) : Nat :=
  calls.countP Call.isSensuReport

/-- Oracle for the Marathon REST client: whether `get_app full_id` succeeds
(rather than raising `KeyError`), what `list_apps` returns, and whether the
delegated brutal bounce raises `IOError` (the in-progress conflict). -/
structure Client where
  get_app_found : Bool
  app_list : List String
  bounce_raises : Bool
deriving DecidableEq, Repr

/-- The process-wide marathon configuration dict (`get_config` result). -/
structure MarathonConfig where
  url : String
  user : String
  pass : String
  cluster : String
  docker_registry : String
  docker_options : List String
deriving DecidableEq, Repr

/-- `deploy_service(name, config, client, bounce_method)`: returns the
`(status, message)` pair together with the trace of external calls. -/
def deploy_service (name : String) (config : CompleteConfig) (client : Client)
    (bounce_method : String) : (Nat × String) × List Call :=
  let filter_name := remove_iteration_from_job_id name
  let app_list := client.app_list
  let old_app_ids := app_list.filter (fun app_id => strContainsSub app_id filter_name)
  if old_app_ids ≠ [] then
    if bounce_method = "brutal" then
      if client.bounce_raises then
        ((1, "Service is taking a while to bounce"),
          [Call.list_apps, Call.brutal_bounce old_app_ids config])
      else
        ((0, "Service deployed."),
          [Call.list_apps, Call.brutal_bounce old_app_ids config])
    else
      ((1, "bounce_method not recognized: " ++ bounce_method), [Call.list_apps])
  else
    ((0, "Service deployed."), [Call.list_apps, Call.create_app config])

/-- `setup_service(service_name, instance_name, client, marathon_config,
service_marathon_config)`, with the registry response body as an oracle.
The `Except` layer carries the `IndexError` that `get_docker_url` may raise,
which no handler in the module catches. -/
def setup_service (service_name instance_name : String) (client : Client)
    (marathon_config : MarathonConfig) (service_marathon_config : ServiceConfig)
    (registry_body : String) : Except PyExc (Nat × String) × List Call :=
  let full_id := compose_job_id service_name instance_name service_marathon_config.iteration
  match get_docker_url marathon_config.docker_registry
      service_marathon_config.docker_image registry_body with
  | .error e => (.error e, [])
  | .ok docker_url =>
    if docker_url = "" then
      (.ok (1, "Docker image not found: " ++ service_marathon_config.docker_image), [])
    else
      let complete_config := create_complete_config full_id docker_url
          marathon_config.docker_options service_marathon_config
      if client.get_app_found then
        (.ok (0, "Service was already deployed."), [Call.get_app full_id])
      else
        let r := deploy_service full_id complete_config client
            (get_bounce_method service_marathon_config)
        (.ok r.1, Call.get_app full_id :: r.2)

/-- `send_sensu_event(name, instance_name, soa_dir, status, output)`, with
the contents of `<soa_dir>/<name>/monitoring.yaml` as an oracle.  Returns
the trace: always one `sensu_report` marker for the invocation, plus the
alert-client `send_event` call when a truthy `team` is configured. -/
def send_sensu_event (name instance_name soa_dir : String) (status : Status)
    (output : String) (monitor_conf : MonitorConf) : List Call :=
  let full_name := "setup_marathon_job." ++ name ++ ID_SPACER ++ instance_name
  let runbook := "y/rb-marathon"
  Call.sensu_report name instance_name status output ::
    (match dictGet monitor_conf "team" with
     | some team =>
       if team.truthy then
         let mc1 := if (dictGet monitor_conf "runbook").isSome then
             dictDel monitor_conf "runbook"
           else monitor_conf
         let mc2 := dictDel mc1 "team"
         let mc3 := dictSet mc2 "alert_after" (MVal.int (-1))
         [Call.send_event full_name runbook status output team mc3]
       else []
     | none => [])

/-- The oracle values for one run: what the external collaborators answer. -/
structure World where
  client : Client
  marathon_config : MarathonConfig
  service_instance_config : Option ServiceConfig
  registry_body : String
  monitor_conf : MonitorConf
deriving DecidableEq, Repr

/-- How one run of the entry point terminates: a `sys.exit` with a code, or
an uncaught exception killing the process. -/
inductive RunOutcome where
  | exited (code : Nat)
  | crashed (e : PyExc)
deriving DecidableEq, Repr

/-- The body of `main` after the identity has been parsed: resolve the
instance configuration, run `setup_service`, and report the outcome.
`service_instance` is the raw CLI token (it appears verbatim in the
missing-configuration alert message). -/
def main_with_identity (service_name instance_name service_instance soa_dir : String)
    (w : World) : RunOutcome × List Call :=
  match w.service_instance_config with
  | some service_instance_config =>
    match setup_service service_name instance_name w.client w.marathon_config
        service_instance_config w.registry_body with
    | (Except.ok (status, output), calls) =>
      let sensu_status := if status != 0 then Status.critical else Status.ok
      (RunOutcome.exited status,
        calls ++ send_sensu_event service_name instance_name soa_dir sensu_status
          output w.monitor_conf)
    | (Except.error e, calls) =>
      if e = PyExc.keyError ∨ e = PyExc.typeError ∨ e = PyExc.valueError then
        (RunOutcome.exited 1,
          calls ++ send_sensu_event service_name instance_name soa_dir Status.critical
            (PyExc.msg e) w.monitor_conf)
      else
        (RunOutcome.crashed e, calls)
  | none =>
    let error_msg := "Could not read marathon configuration file for " ++
      service_instance ++ " in cluster " ++ w.marathon_config.cluster
    (RunOutcome.exited 1,
      send_sensu_event service_name instance_name soa_dir Status.critical
        error_msg w.monitor_conf)

/-- The entry point `main()`: split the identity token on `ID_SPACER`
(`IndexError`, i.e. fewer than two parts, exits 1 before anything else),
then run the pipeline. -/
def main_entry (service_instance soa_dir : String) (w : World) : RunOutcome × List Call :=
  let parts := pySplit service_instance ID_SPACER
  if parts.length < 2 then
    (RunOutcome.exited 1, [])
  else
    main_with_identity (parts.getD 0 "") (parts.getD 1 "") service_instance soa_dir w

/-! Concrete fixtures used by witnesses and counterexamples. -/

/-- A concrete marathon configuration. -/
def mcFix : MarathonConfig :=
  { url := "http://marathon-host:8080"
    user := "user"
    pass := "pw"
    cluster := "testcluster"
    docker_registry := "registry.example"
    docker_options := ["-v"] }

/-- A concrete instance configuration with a tagged image. -/
def cfgFix : ServiceConfig := { iteration := "3", docker_image := "img:tag" }

/-- A client for which the exact full id is already running. -/
def clientFound : Client := { get_app_found := true, app_list := [], bounce_raises := false }

/-- A happy-path world: configuration present, image found, exact id already
deployed, monitoring team configured. -/
def worldHappy : World :=
  { client := clientFound
    marathon_config := mcFix
    service_instance_config := some cfgFix
    registry_body := "okbody"
    monitor_conf := [("team", MVal.str "ops")] }

/-- A configuration with negative resource values, on which the descriptor
invariants of the spec fail. -/
def cfgNeg : ServiceConfig :=
  { iteration := "3", docker_image := "img:tag",
    num_ports := some (-1), mem := some (-5), cpus := some (-7) }

/-- A client whose app list holds only an unrelated id. -/
def clientOther : Client :=
  { get_app_found := false, app_list := ["other.app.1"], bounce_raises := false }

/-- A client whose app list holds a prior iteration of `svc.inst`. -/
def clientPrior : Client :=
  { get_app_found := false, app_list := ["svc.inst.2"], bounce_raises := false }

/-! Helper lemmas about the split and containment models. -/

theorem splitCharAux_ne_nil (c : Char) (l : List Char) : splitCharAux c l ≠ [] := by
  cases l with
  | nil => simp [splitCharAux]
  | cons x xs =>
    unfold splitCharAux
    by_cases h : x = c
    · simp [h]
    · simp only [h, if_false]
      split <;> simp

theorem splitCharAux_length_one (c : Char) (l : List Char) :
    (splitCharAux c l).length = 1 ↔ c ∉ l := by
  induction l with
  | nil => simp [splitCharAux]
  | cons x xs ih =>
    unfold splitCharAux
    by_cases h : x = c
    · rcases hrest : splitCharAux c xs with _ | ⟨r, rs⟩
      · exact absurd hrest (splitCharAux_ne_nil c xs)
      · subst h
        simp [hrest]
    · rcases hrest : splitCharAux c xs with _ | ⟨r, rs⟩
      · exact absurd hrest (splitCharAux_ne_nil c xs)
      · rw [hrest] at ih
        simp only [h, if_false, hrest]
        simp only [List.length_cons] at ih ⊢
        constructor
        · intro hlen
          rcases ih.mp hlen with hnotin
          intro hmem
          rcases List.mem_cons.mp hmem with heq | hmem'
          · exact h heq.symm
          · exact hnotin hmem'
        · intro hnotin
          exact ih.mpr (fun hmem => hnotin (List.mem_cons_of_mem x hmem))

theorem containsAux_singleton (c : Char) (l : List Char) :
    containsAux [c] l = true ↔ c ∈ l := by
  induction l with
  | nil => simp [containsAux, List.isEmpty]
  | cons x xs ih =>
    unfold containsAux
    simp [List.isPrefixOf, ih, Bool.or_eq_true, beq_iff_eq]

theorem pySplit_short_iff_no_spacer (s : String) :
    (pySplit s ID_SPACER).length < 2 ↔ strContainsSub s ID_SPACER = false := by
  have hd : ID_SPACER.data = ['.'] := rfl
  unfold pySplit strContainsSub
  rw [hd]
  simp only [List.length_map]
  have hne : (splitCharAux '.' s.data).length ≠ 0 := by
    intro h
    exact splitCharAux_ne_nil '.' s.data (List.length_eq_zero.mp h)
  constructor
  · intro hlt
    have h1 : (splitCharAux '.' s.data).length = 1 := by omega
    have := (splitCharAux_length_one '.' s.data).mp h1
    simp only [Bool.eq_false_iff, ne_eq, containsAux_singleton]
    exact this
  · intro hfalse
    have : ¬ ('.' ∈ s.data) := by
      intro hmem
      rw [(containsAux_singleton '.' s.data).mpr hmem] at hfalse
      exact Bool.true_eq_false.mp hfalse
    have h1 := (splitCharAux_length_one '.' s.data).mpr this
    omega

/-! Helper lemmas about the monitoring-record dictionary model. -/

theorem dictGet_del_self (d : MonitorConf) (k : String) : dictGet (dictDel d k) k = none := by
  induction d with
  | nil => rfl
  | cons a t ih =>
    obtain ⟨ka, v⟩ := a
    by_cases h : ka = k
    · simpa [dictDel, h] using ih
    · simp [dictDel, dictGet, h, ih]

theorem dictGet_del_other (d : MonitorConf) (k k' : String) (h : k' ≠ k) :
    dictGet (dictDel d k) k' = dictGet d k' := by
  induction d with
  | nil => rfl
  | cons a t ih =>
    obtain ⟨ka, v⟩ := a
    by_cases ha : ka = k
    · have hne : ka ≠ k' := by rw [ha]; exact fun e => h e.symm
      have hk : k ≠ k' := fun e => h e.symm
      simp [dictDel, dictGet, ha, hne, hk, ih]
    · by_cases ha' : ka = k'
      · simp [dictDel, dictGet, ha, ha', h]
      · simp [dictDel, dictGet, ha, ha', ih]

theorem dictGet_append (d₁ d₂ : MonitorConf) (k : String) :
    dictGet (d₁ ++ d₂) k =
      match dictGet d₁ k with
      | some v => some v
      | none => dictGet d₂ k := by
  induction d₁ with
  | nil => simp [dictGet]
  | cons a t ih =>
    obtain ⟨ka, v⟩ := a
    by_cases h : ka = k <;> simp [dictGet, h, ih]

theorem dictGet_set_self (d : MonitorConf) (k : String) (v : MVal) :
    dictGet (dictSet d k v) k = some v := by
  unfold dictSet
  rw [dictGet_append, dictGet_del_self]
  simp [dictGet]

theorem dictGet_set_other (d : MonitorConf) (k k' : String) (v : MVal) (h : k' ≠ k) :
    dictGet (dictSet d k v) k' = dictGet d k' := by
  unfold dictSet
  rw [dictGet_append, dictGet_del_other d k k' h]
  have hk : k ≠ k' := fun e => h e.symm
  cases hget : dictGet d k' <;> simp [dictGet, hk]

/-! Helper lemmas about alert-attempt counts in traces. -/

theorem sensuAttempts_append (l₁ l₂ : List Call) :
    sensuAttempts (l₁ ++ l₂) = sensuAttempts l₁ + sensuAttempts l₂ :=
  List.countP_append _ _ _

theorem sensuAttempts_send (name instance_name soa_dir : String) (status : Status)
    (output : String) (conf : MonitorConf) :
    sensuAttempts (send_sensu_event name instance_name soa_dir status output conf) = 1 := by
  unfold send_sensu_event sensuAttempts
  rw [List.countP_cons]
  have h1 : Call.isSensuReport (Call.sensu_report name instance_name status output) = true := rfl
  rw [h1]
  split
  · split <;> simp [Call.isSensuReport, List.countP_cons]
  · simp

theorem sensuAttempts_deploy (name : String) (config : CompleteConfig) (client : Client)
    (bounce_method : String) :
    sensuAttempts (deploy_service name config client bounce_method).2 = 0 := by
  unfold deploy_service
  by_cases hne : ∃ x ∈ client.app_list, strContainsSub x (remove_iteration_from_job_id name) = true
  · by_cases hbm : bounce_method = "brutal"
    · by_cases hbr : client.bounce_raises = true
      · simp [hne, hbm, hbr, sensuAttempts, List.countP_cons, Call.isSensuReport]
      · simp [hne, hbm, hbr, sensuAttempts, List.countP_cons, Call.isSensuReport]
    · simp [hne, hbm, sensuAttempts, List.countP_cons, Call.isSensuReport]
  · simp [hne, sensuAttempts, List.countP_cons, Call.isSensuReport]

theorem sensuAttempts_setup (service_name instance_name : String) (client : Client)
    (marathon_config : MarathonConfig) (cfg : ServiceConfig) (registry_body : String) :
    sensuAttempts (setup_service service_name instance_name client marathon_config
      cfg registry_body).2 = 0 := by
  unfold setup_service
  cases hurl : get_docker_url marathon_config.docker_registry cfg.docker_image registry_body with
  | error e => simp [sensuAttempts]
  | ok docker_url =>
    by_cases he : docker_url = ""
    · simp [he, sensuAttempts]
    · by_cases hf : client.get_app_found
      · simp [he, hf, sensuAttempts, List.countP_cons, Call.isSensuReport]
      · simp only [he, hf, if_false, ite_false, Bool.false_eq_true]
        unfold sensuAttempts
        rw [List.countP_cons]
        have h0 : Call.isSensuReport (Call.get_app (compose_job_id service_name
            instance_name cfg.iteration)) = false := rfl
        simp only [h0, if_false, Nat.add_zero, ite_false]
        exact sensuAttempts_deploy _ _ _ _

/-! Helper lemmas about the image locator and the descriptor builder. -/

theorem get_docker_url_ok (registry_uri docker_image registry_body : String)
    (htag : 2 ≤ (pySplit docker_image ":").length)
    (hbody : strContainsSub registry_body "error" = false) :
    get_docker_url registry_uri docker_image registry_body =
      Except.ok ("docker:///" ++ registry_uri ++ "/" ++ docker_image) := by
  unfold get_docker_url
  have h2 : ¬ (pySplit docker_image ":").length < 2 := by omega
  simp [h2, hbody]

theorem docker_url_ne_empty (registry_uri docker_image : String) :
    "docker:///" ++ registry_uri ++ "/" ++ docker_image ≠ "" := by
  intro h
  have hl := congrArg String.length h
  simp only [String.length_append] at hl
  have h10 : ("docker:///" : String).length = 10 := rfl
  have h0 : ("" : String).length = 0 := rfl
  omega

theorem get_ports_length (cfg : ServiceConfig)
    (hp : ∀ n, cfg.num_ports = some n → 0 ≤ n) :
    1 ≤ (get_ports cfg).length := by
  unfold get_ports
  cases h : cfg.num_ports with
  | none => simp [intTruthy]
  | some n =>
    have h0 := hp n h
    by_cases hz : n = 0
    · simp [intTruthy, hz]
    · have hb : (n != 0) = true := by simp [hz]
      simp only [intTruthy, hb, if_true, ite_true, List.length_map, List.length_range,
        Option.getD_some]
      omega

theorem get_mem_pos (cfg : ServiceConfig) (hm : ∀ n, cfg.mem = some n → 0 ≤ n) :
    0 < get_mem cfg := by
  unfold get_mem
  cases h : cfg.mem with
  | none => simp [intTruthy]
  | some n =>
    have h0 := hm n h
    by_cases hz : n = 0
    · simp [intTruthy, hz]
    · have hb : (n != 0) = true := by simp [hz]
      simp only [intTruthy, hb, if_true, ite_true, Option.getD_some]
      omega

theorem get_cpus_pos (cfg : ServiceConfig) (hc : ∀ n, cfg.cpus = some n → 0 ≤ n) :
    0 < get_cpus cfg := by
  unfold get_cpus
  cases h : cfg.cpus with
  | none => simp [intTruthy]
  | some n =>
    have h0 := hc n h
    by_cases hz : n = 0
    · simp [intTruthy, hz]
    · have hb : (n != 0) = true := by simp [hz]
      simp only [intTruthy, hb, if_true, ite_true, Option.getD_some]
      omega

/-! Claim theorems. -/

/-- Claim C2, counterexample: with `num_ports = -1`, `mem = -5`, `cpus = -7`
in the service configuration, the descriptor's ports list is empty
(Python `range(-1)` is empty) and mem and cpus are negative, refuting the
unconditional invariant. -/
theorem C2_counterexample :
    (create_complete_config "full.id.3" "docker:///r/img:tag" [] cfgNeg).ports = [] ∧
    (create_complete_config "full.id.3" "docker:///r/img:tag" [] cfgNeg).mem = -5 ∧
    (create_complete_config "full.id.3" "docker:///r/img:tag" [] cfgNeg).cpus = -7 := by
  refine ⟨by decide, by decide, by decide⟩

/-- Claim C2 (amended): for every service configuration record whose
configured `num_ports`, `mem` and `cpus` values are nonnegative when present,
the ports list placed in the job descriptor has length at least 1 and the
mem and cpus values are positive after defaulting; when the keys are absent
the defaults are one placeholder port `[0]`, mem `100` and cpus `1`. -/
theorem C2_descriptor_invariants (name url : String) (docker_options : List String)
    (cfg : ServiceConfig)
    (hp : ∀ n, cfg.num_ports = some n → 0 ≤ n)
    (hm : ∀ n, cfg.mem = some n → 0 ≤ n)
    (hc : ∀ n, cfg.cpus = some n → 0 ≤ n) :
    1 ≤ (create_complete_config name url docker_options cfg).ports.length ∧
    0 < (create_complete_config name url docker_options cfg).mem ∧
    0 < (create_complete_config name url docker_options cfg).cpus ∧
    (cfg.num_ports = none → (create_complete_config name url docker_options cfg).ports = [0]) ∧
    (cfg.mem = none → (create_complete_config name url docker_options cfg).mem = 100) ∧
    (cfg.cpus = none → (create_complete_config name url docker_options cfg).cpus = 1) := by
  refine ⟨get_ports_length cfg hp, get_mem_pos cfg hm, get_cpus_pos cfg hc, ?_, ?_, ?_⟩
  · intro h
    simp [create_complete_config, get_ports, h, intTruthy]
  · intro h
    simp [create_complete_config, get_mem, h, intTruthy]
  · intro h
    simp [create_complete_config, get_cpus, h, intTruthy]

/-- Witness for C2's amended theorem at a concrete configuration. -/
theorem C2_witness :
    1 ≤ (create_complete_config "full.id.3" "docker:///r/img:tag" [] cfgFix).ports.length ∧
    0 < (create_complete_config "full.id.3" "docker:///r/img:tag" [] cfgFix).mem ∧
    0 < (create_complete_config "full.id.3" "docker:///r/img:tag" [] cfgFix).cpus ∧
    (cfgFix.num_ports = none →
      (create_complete_config "full.id.3" "docker:///r/img:tag" [] cfgFix).ports = [0]) ∧
    (cfgFix.mem = none →
      (create_complete_config "full.id.3" "docker:///r/img:tag" [] cfgFix).mem = 100) ∧
    (cfgFix.cpus = none →
      (create_complete_config "full.id.3" "docker:///r/img:tag" [] cfgFix).cpus = 1) :=
  C2_descriptor_invariants "full.id.3" "docker:///r/img:tag" [] cfgFix
    (by intro n h; simp [cfgFix] at h) (by intro n h; simp [cfgFix] at h)
    (by intro n h; simp [cfgFix] at h)

/-- Claim C3, counterexample: for a docker image with no `:` tag separator
the function raises `IndexError` (while composing the registry request URL)
instead of returning a URI, refuting the claim for every image string. -/
theorem C3_counterexample :
    get_docker_url "registry.example" "busybox" "okbody" =
      Except.error PyExc.indexError := by
  rfl

/-- Claim C3 (amended): for every registry URI, docker image string of the
form `name:tag` (containing the tag separator), and registry response body,
`get_docker_url` returns the empty string when the body contains the
substring `"error"` and otherwise returns exactly
`docker:///<registry_uri>/<docker_image>`. -/
theorem C3_docker_url (registry_uri docker_image registry_body : String)
    (htag : 2 ≤ (pySplit docker_image ":").length) :
    get_docker_url registry_uri docker_image registry_body =
      Except.ok (if strContainsSub registry_body "error" then ""
                 else "docker:///" ++ registry_uri ++ "/" ++ docker_image) := by
  unfold get_docker_url
  have h2 : ¬ (pySplit docker_image ":").length < 2 := by omega
  simp only [h2, if_false, ite_false]
  split <;> simp

/-- Witness for C3's amended theorem at concrete inputs. -/
theorem C3_witness :
    get_docker_url "registry.example" "img:tag" "tag not found error" =
      Except.ok (if strContainsSub "tag not found error" "error" then ""
                 else "docker:///" ++ "registry.example" ++ "/" ++ "img:tag") :=
  C3_docker_url "registry.example" "img:tag" "tag not found error" (by decide)

/-- Claim C4: when the registry confirms the image and the orchestrator
lookup of the exact full job id succeeds, `setup_service` returns
`(0, "Service was already deployed.")` having made only that lookup:
no listing, creating, or bouncing of apps, and no call to `deploy_service`. -/
theorem C4_already_deployed (service_name instance_name : String) (client : Client)
    (marathon_config : MarathonConfig) (cfg : ServiceConfig) (registry_body : String)
    (hfound : client.get_app_found = true)
    (htag : 2 ≤ (pySplit cfg.docker_image ":").length)
    (hbody : strContainsSub registry_body "error" = false) :
    setup_service service_name instance_name client marathon_config cfg registry_body =
      (Except.ok (0, "Service was already deployed."),
        [Call.get_app (compose_job_id service_name instance_name cfg.iteration)]) ∧
    ∀ c ∈ (setup_service service_name instance_name client marathon_config cfg
        registry_body).2, c.isOrchWrite = false := by
  have hurl := get_docker_url_ok marathon_config.docker_registry cfg.docker_image
    registry_body htag hbody
  have hne := docker_url_ne_empty marathon_config.docker_registry cfg.docker_image
  constructor
  · unfold setup_service
    rw [hurl]
    simp [hne, hfound]
  · intro c hc
    unfold setup_service at hc
    rw [hurl] at hc
    simp [hne, hfound] at hc
    subst hc
    rfl

/-- Witness for C4 at a concrete world. -/
theorem C4_witness :
    setup_service "svc" "inst" clientFound mcFix cfgFix "okbody" =
      (Except.ok (0, "Service was already deployed."),
        [Call.get_app (compose_job_id "svc" "inst" cfgFix.iteration)]) ∧
    ∀ c ∈ (setup_service "svc" "inst" clientFound mcFix cfgFix "okbody").2,
      c.isOrchWrite = false :=
  C4_already_deployed "svc" "inst" clientFound mcFix cfgFix "okbody"
    (by decide) (by decide) (by decide)

/-- Claim C5: when no listed app id contains the stripped filter name,
`deploy_service` creates the app once from the built descriptor and returns
`(0, "Service deployed.")`, for every bounce method. -/
theorem C5_fresh_deploy (name : String) (config : CompleteConfig) (client : Client)
    (bounce_method : String)
    (h : ∀ a ∈ client.app_list,
      strContainsSub a (remove_iteration_from_job_id name) = false) :
    deploy_service name config client bounce_method =
      ((0, "Service deployed."), [Call.list_apps, Call.create_app config]) := by
  unfold deploy_service
  have hfil : List.filter (fun app_id =>
      strContainsSub app_id (remove_iteration_from_job_id name)) client.app_list = [] := by
    rw [List.filter_eq_nil_iff]
    intro a ha
    simp [h a ha]
  simp [hfil]

/-- Witness for C5 at a concrete listing with an unrelated app id. -/
theorem C5_witness :
    deploy_service "svc.inst.3"
        (create_complete_config "svc.inst.3" "docker:///r/img:tag" [] cfgFix)
        clientOther "crossover" =
      ((0, "Service deployed."),
        [Call.list_apps, Call.create_app
          (create_complete_config "svc.inst.3" "docker:///r/img:tag" [] cfgFix)]) :=
  C5_fresh_deploy "svc.inst.3"
    (create_complete_config "svc.inst.3" "docker:///r/img:tag" [] cfgFix)
    clientOther "crossover" (by decide)

/-- Claim C6: with a matching prior iteration listed and any bounce method
other than `"brutal"`, `deploy_service` returns
`(1, "bounce_method not recognized: <value>")` having only listed apps:
no create-app call and no bounce call. -/
theorem C6_unrecognized_bounce (name : String) (config : CompleteConfig) (client : Client)
    (bounce_method : String) (hbm : bounce_method ≠ "brutal")
    (a : String) (ha : a ∈ client.app_list)
    (hc : strContainsSub a (remove_iteration_from_job_id name) = true) :
    deploy_service name config client bounce_method =
      ((1, "bounce_method not recognized: " ++ bounce_method), [Call.list_apps]) := by
  unfold deploy_service
  have hne : ∃ x ∈ client.app_list,
      strContainsSub x (remove_iteration_from_job_id name) = true := ⟨a, ha, hc⟩
  simp [hne, hbm]

/-- Witness for C6 at a concrete listing with a matching prior iteration. -/
theorem C6_witness :
    deploy_service "svc.inst.3"
        (create_complete_config "svc.inst.3" "docker:///r/img:tag" [] cfgFix)
        clientPrior "crossover" =
      ((1, "bounce_method not recognized: " ++ "crossover"), [Call.list_apps]) :=
  C6_unrecognized_bounce "svc.inst.3"
    (create_complete_config "svc.inst.3" "docker:///r/img:tag" [] cfgFix)
    clientPrior "crossover" (by decide) "svc.inst.2" (by decide) (by decide)

/-- Claim C7, counterexample: a monitoring record that supplies a `team`
key with an empty (falsy) value; the key is present, yet no alert-client
call is made, refuting "if and only if the record supplies a team". -/
theorem C7_counterexample :
    dictGet [("team", MVal.str "")] "team" = some (MVal.str "") ∧
    sendEventCalls (send_sensu_event "svc" "inst" "/soa" Status.ok "out"
      [("team", MVal.str "")]) = [] := by
  refine ⟨by decide, by decide⟩

/-- Claim C7 (amended): `send_sensu_event` makes an alert-client call iff the
monitoring record supplies a truthy `team` value; it makes at most one call,
and any call made uses the fixed runbook literal `"y/rb-marathon"` and
forwards extra fields without the `team` and `runbook` keys but with
`alert_after = -1`. -/
theorem C7_sensu_emission (name instance_name soa_dir : String) (status : Status)
    (output : String) (conf : MonitorConf) :
    (sendEventCalls (send_sensu_event name instance_name soa_dir status output conf) ≠ [] ↔
      (dictGet conf "team").elim false MVal.truthy = true) ∧
    (sendEventCalls (send_sensu_event name instance_name soa_dir status output conf)).length ≤ 1 ∧
    (∀ n rb st out tm ex,
      Call.send_event n rb st out tm ex ∈
        send_sensu_event name instance_name soa_dir status output conf →
      rb = "y/rb-marathon" ∧ dictGet ex "team" = none ∧ dictGet ex "runbook" = none ∧
        dictGet ex "alert_after" = some (MVal.int (-1))) := by
  unfold send_sensu_event sendEventCalls
  cases hteam : dictGet conf "team" with
  | none =>
    refine ⟨?_, ?_, ?_⟩
    · simp [List.filter, Call.isSendEvent]
    · simp [List.filter, Call.isSendEvent]
    · intro n rb st out tm ex hmem
      simp at hmem
  | some t =>
    by_cases ht : t.truthy
    · refine ⟨?_, ?_, ?_⟩
      · simp [ht, List.filter, Call.isSendEvent]
      · simp [ht, List.filter, Call.isSendEvent]
      · intro n rb st out tm ex hmem
        simp [ht] at hmem
        obtain ⟨hn, hrb, hst, hout, htm, hex⟩ := hmem
        subst hrb
        subst hex
        refine ⟨rfl, ?_, ?_, ?_⟩
        · rw [dictGet_set_other _ _ _ _ (by decide), dictGet_del_self]
        · rw [dictGet_set_other _ _ _ _ (by decide),
            dictGet_del_other _ _ _ (by decide)]
          by_cases hrun : (dictGet conf "runbook").isSome
          · simp only [hrun, if_true, ite_true]
            exact dictGet_del_self conf "runbook"
          · simp only [hrun, if_false, ite_false]
            exact Option.not_isSome_iff_eq_none.mp hrun
        · exact dictGet_set_self _ _ _
    · refine ⟨?_, ?_, ?_⟩
      · simp [ht, List.filter, Call.isSendEvent]
      · simp [ht, List.filter, Call.isSendEvent]
      · intro n rb st out tm ex hmem
        simp [ht] at hmem

/-- Witness for C7's amended theorem: the concrete forwarded fields of a
successful emission. -/
theorem C7_witness :
    ("y/rb-marathon" : String) = "y/rb-marathon" ∧
    dictGet [("alert_after", MVal.int (-1))] "team" = none ∧
    dictGet [("alert_after", MVal.int (-1))] "runbook" = none ∧
    dictGet [("alert_after", MVal.int (-1))] "alert_after" = some (MVal.int (-1)) :=
  (C7_sensu_emission "svc" "inst" "/soa" Status.ok "out" [("team", MVal.str "ops")]).2.2
    "setup_marathon_job.svc.inst" "y/rb-marathon" Status.ok "out" (MVal.str "ops")
    [("alert_after", MVal.int (-1))] (by decide)

/-- Claim C8: every alert-client call made by `send_sensu_event` names the
event `setup_marathon_job.<service_name>.<instance_name>`, the three pieces
joined by the character `.` (the shared identity separator being the same
literal, the two descriptions coincide). -/
theorem C8_event_name (name instance_name soa_dir : String) (status : Status)
    (output : String) (conf : MonitorConf) (n rb : String) (st : Status) (out : String)
    (tm : MVal) (ex : MonitorConf)
    (h : Call.send_event n rb st out tm ex ∈
      send_sensu_event name instance_name soa_dir status output conf) :
    n = "setup_marathon_job." ++ name ++ "." ++ instance_name := by
  unfold send_sensu_event at h
  rcases List.mem_cons.mp h with heq | h2
  · exact absurd heq (by simp)
  · cases hteam : dictGet conf "team" with
    | none =>
      rw [hteam] at h2
      simp at h2
    | some t =>
      rw [hteam] at h2
      by_cases ht : t.truthy
      · simp [ht] at h2
        exact h2.1
      · simp [ht] at h2

/-- Witness for C8 at a concrete emission. -/
theorem C8_witness :
    ("setup_marathon_job.svc.inst" : String) =
      "setup_marathon_job." ++ "svc" ++ "." ++ "inst" :=
  C8_event_name "svc" "inst" "/soa" Status.ok "out" [("team", MVal.str "ops")]
    "setup_marathon_job.svc.inst" "y/rb-marathon" Status.ok "out" (MVal.str "ops")
    [("alert_after", MVal.int (-1))] (by decide)

/-- Claim C1, counterexample: `"a.b.c"` splits into three parts (not exactly
two non-empty parts), yet the entry point accepts it and completes a happy
run with exit status 0 instead of exiting 1. -/
theorem C1_counterexample :
    (pySplit "a.b.c" ID_SPACER).length = 3 ∧
    (main_entry "a.b.c" "/soa" worldHappy).1 = RunOutcome.exited 0 := by
  refine ⟨by decide, by decide⟩

/-- Claim C1 (amended): for every command-line identity argument whose split
on the shared identity separator yields fewer than two parts (in particular,
an argument with no separator), the entry point exits with status 1 and
makes no external call at all — in particular no alert-client call. -/
theorem C1_invalid_input (service_instance soa_dir : String) (w : World)
    (h : (pySplit service_instance ID_SPACER).length < 2) :
    main_entry service_instance soa_dir w = (RunOutcome.exited 1, []) := by
  unfold main_entry
  simp [h]

/-- Witness for C1's amended theorem: a separator-free argument. -/
theorem C1_witness :
    main_entry "checkout" "/soa" worldHappy = (RunOutcome.exited 1, []) :=
  C1_invalid_input "checkout" "/soa" worldHappy (by decide)

/-- The alert-attempt count of one reporter-stage run of the pipeline body:
one attempt on every exit path, none when an uncaught exception escapes. -/
theorem sensuAttempts_main_with_identity (service_name instance_name service_instance
    soa_dir : String) (w : World) :
    sensuAttempts (main_with_identity service_name instance_name service_instance
        soa_dir w).2 =
      match (main_with_identity service_name instance_name service_instance
          soa_dir w).1 with
      | RunOutcome.crashed _ => 0
      | RunOutcome.exited _ => 1 := by
  unfold main_with_identity
  cases hcfg : w.service_instance_config with
  | none => simp [sensuAttempts_append, sensuAttempts_send]
  | some cfg =>
    have h0 := sensuAttempts_setup service_name instance_name w.client
      w.marathon_config cfg w.registry_body
    rcases hs : setup_service service_name instance_name w.client w.marathon_config cfg
        w.registry_body with ⟨res, calls⟩
    rw [hs] at h0
    cases res with
    | ok p =>
      rcases p with ⟨status, output⟩
      simp [hs, sensuAttempts_append, h0, sensuAttempts_send]
    | error e =>
      by_cases he : e = PyExc.keyError ∨ e = PyExc.typeError ∨ e = PyExc.valueError
      · simp [hs, he, sensuAttempts_append, h0, sensuAttempts_send]
      · simp [hs, he, h0]

/-- Claim C9 (amended): every run of the entry point attempts the alerting
event exactly once, except runs rejected at identity parsing and runs killed
by an exception outside the `KeyError`/`TypeError`/`ValueError` family, which
attempt it zero times. -/
theorem C9_alert_once (service_instance soa_dir : String) (w : World) :
    sensuAttempts (main_entry service_instance soa_dir w).2 =
      if (pySplit service_instance ID_SPACER).length < 2 then 0
      else
        match (main_entry service_instance soa_dir w).1 with
        | RunOutcome.crashed _ => 0
        | RunOutcome.exited _ => 1 := by
  by_cases h : (pySplit service_instance ID_SPACER).length < 2
  · simp [main_entry, h, sensuAttempts]
  · have hme : main_entry service_instance soa_dir w =
        main_with_identity ((pySplit service_instance ID_SPACER).getD 0 "")
          ((pySplit service_instance ID_SPACER).getD 1 "") service_instance soa_dir w := by
      unfold main_entry
      simp [h]
    rw [hme, if_neg h]
    exact sensuAttempts_main_with_identity _ _ _ _ _

/-- Claim C9, counterexample: a run on a separator-free argument reaches a
terminal outcome (a handled failure, exit status 1) with zero alert
attempts, refuting "exactly once per terminal outcome". -/
theorem C9_counterexample :
    (main_entry "checkout" "/etc/soa" worldHappy).1 = RunOutcome.exited 1 ∧
    sensuAttempts (main_entry "checkout" "/etc/soa" worldHappy).2 = 0 := by
  refine ⟨by decide, by decide⟩

/-- Claim C10: identity parsing accepts every argument splitting into two or
more parts on the shared identity separator (empty parts included), takes
the first part as the service name and the second as the instance name
(extra parts are ignored), and exits 1 exactly when the split yields fewer
than two parts — equivalently, when the argument has no separator at all. -/
theorem C10_identity_parsing (service_instance soa_dir : String) (w : World) :
    ((pySplit service_instance ID_SPACER).length < 2 ↔
      strContainsSub service_instance ID_SPACER = false) ∧
    ((pySplit service_instance ID_SPACER).length < 2 →
      main_entry service_instance soa_dir w = (RunOutcome.exited 1, [])) ∧
    (2 ≤ (pySplit service_instance ID_SPACER).length →
      main_entry service_instance soa_dir w =
        main_with_identity ((pySplit service_instance ID_SPACER).getD 0 "")
          ((pySplit service_instance ID_SPACER).getD 1 "") service_instance soa_dir w) := by
  refine ⟨pySplit_short_iff_no_spacer service_instance, ?_, ?_⟩
  · intro h
    unfold main_entry
    simp [h]
  · intro h
    have h2 : ¬ (pySplit service_instance ID_SPACER).length < 2 := by omega
    unfold main_entry
    simp [h2]

/-- Witness for C10: an argument with an empty second part and an extra
third part is accepted, with service name `"a"` and instance name `""`. -/
theorem C10_witness :
    main_entry "a..b.c" "/soa" worldHappy =
      main_with_identity "a" "" "a..b.c" "/soa" worldHappy :=
  (C10_identity_parsing "a..b.c" "/soa" worldHappy).2.2 (by decide)
